import Mathlib

/-!
Verification of the input-mode-detection core of the StevesUEHelpers plugin
(`UStevesGameSubsystem` / `FInputModeDetector`).

The detector state, its event handlers and the mode-set algorithm are embedded
from `StevesGameSubsystem.cpp`; float quantities (analog magnitudes, mouse
deltas, thresholds) are modelled as rationals, player indices as naturals
(Slate user indices are non-negative).
-/

/-- Modelled from the spec: the `EInputMode` enumeration is declared in
`StevesHelperCommon.h`, which is not part of the sources; the spec gives the
enumeration as `{Unknown, Mouse, Keyboard, Gamepad}`, so `Unknown` is the
first enumerator, i.e. the one with underlying value `0`. -/
inductive EInputMode where
  | Unknown
  | Mouse
  | Keyboard
  | Gamepad
deriving DecidableEq, Repr

/-- `DefaultInputMode` member of `FInputModeDetector` (header, line 69). -/
def DefaultInputMode : EInputMode := EInputMode.Mouse

/-- `DefaultButtonInputMode` member of `FInputModeDetector` (header, line 70). -/
def DefaultButtonInputMode : EInputMode := EInputMode.Keyboard

/-- `MouseMoveThreshold` member of `FInputModeDetector` (header, line 71). -/
def MouseMoveThreshold : ℚ := 1

/-- `GamepadAxisThreshold` member of `FInputModeDetector` (header, line 72):
the float `0.2`, i.e. one fifth. -/
def GamepadAxisThreshold : ℚ := mkRat 1 5

/-- The mutable state of `FInputModeDetector`: the two per-player mode arrays
and the suppression flag `bIgnoreEvents` (delegates are modelled by returning
the fired notifications from each operation instead). -/
structure FInputModeDetector where
  LastInputModeByPlayer : List EInputMode
  LastButtonPressByPlayer : List EInputMode
  bIgnoreEvents : Bool
deriving DecidableEq, Repr

/-- The notifications a detector operation can fire:
`OnButtonInputModeChanged` and `OnInputModeChanged`, each carrying the player
index and the new mode. -/
inductive DetectorEvent where
  | buttonInputModeChanged (playerIndex : Nat) (mode : EInputMode)
  | inputModeChanged (playerIndex : Nat) (mode : EInputMode)
deriving DecidableEq, Repr

/-- The constructor `FInputModeDetector::FInputModeDetector` (lines 293-298):
both arrays are initialised with 4 copies of the respective default;
`bIgnoreEvents` is initialised to `false` in the header (line 77). -/
def initialDetector : FInputModeDetector :=
  { LastInputModeByPlayer := List.replicate 4 DefaultInputMode
    LastButtonPressByPlayer := List.replicate 4 DefaultButtonInputMode
    bIgnoreEvents := false }

/-- `FInputModeDetector::ShouldProcessInputEvents` (lines 288-291). -/
def ShouldProcessInputEvents (d : FInputModeDetector) : Bool :=
  !d.bIgnoreEvents

/-- `FInputModeDetector::GetLastInputMode` (lines 363-370): in-range reads
return the stored element, anything else the seeded default.  (The C++ also
guards `PlayerIndex >= 0`, vacuous for a natural-number index.) -/
def GetLastInputMode (d : FInputModeDetector) (playerIndex : Nat) : EInputMode :=
  d.LastInputModeByPlayer.getD playerIndex DefaultInputMode

/-- `FInputModeDetector::GetLastButtonInputMode` (lines 372-379). -/
def GetLastButtonInputMode (d : FInputModeDetector) (playerIndex : Nat) : EInputMode :=
  d.LastButtonPressByPlayer.getD playerIndex DefaultButtonInputMode

/-- `TArray<EInputMode>::SetNum(playerIndex + 1)` as called by `SetMode`
(lines 429-430 and 440-441), where the call is guarded by
`PlayerIndex >= Num()` and therefore always grows.  `TArray::SetNum`
default-constructs the new elements, which for a trivially-constructible
element type zeroes their memory, so the padding elements hold the enum
value `0` — `EInputMode.Unknown` under the spec-modelled enumerator order. -/
def setNumGrowIfNeeded (a : List EInputMode) (playerIndex : Nat) : List EInputMode :=
  if a.length ≤ playerIndex then
    a ++ List.replicate (playerIndex + 1 - a.length) EInputMode.Unknown
  else a

/-- The button-mode half of `FInputModeDetector::SetMode` (lines 425-436):
when `bIsButton` is set, the new mode is not `Unknown` and differs from the
current button mode, grow the array if needed and store the mode; the returned
flag is `bButtonChanged`. -/
def SetModeButton (d : FInputModeDetector) (playerIndex : Nat) (newMode : EInputMode)
    (bIsButton : Bool) : FInputModeDetector × Bool :=
  if bIsButton = true ∧ newMode ≠ EInputMode.Unknown ∧
      newMode ≠ GetLastButtonInputMode d playerIndex then
    ({ d with LastButtonPressByPlayer :=
        (setNumGrowIfNeeded d.LastButtonPressByPlayer playerIndex).set playerIndex newMode },
     true)
  else (d, false)

/-- The main-mode half of `FInputModeDetector::SetMode` (lines 437-446):
whether or not the event is a button, when the new mode is not `Unknown` and
differs from the current main mode, grow the array if needed and store the
mode; the returned flag is `bMainChanged`. -/
def SetModeMain (d : FInputModeDetector) (playerIndex : Nat) (newMode : EInputMode) :
    FInputModeDetector × Bool :=
  if newMode ≠ EInputMode.Unknown ∧ newMode ≠ GetLastInputMode d playerIndex then
    ({ d with LastInputModeByPlayer :=
        (setNumGrowIfNeeded d.LastInputModeByPlayer playerIndex).set playerIndex newMode },
     true)
  else (d, false)

/-- `FInputModeDetector::SetMode` (lines 420-462): the button update, then the
main update, then the notifications — button first, main second, both carrying
the same new mode, each fired only when its flag was set. -/
def SetMode (d : FInputModeDetector) (playerIndex : Nat) (newMode : EInputMode)
    (bIsButton : Bool) : FInputModeDetector × List DetectorEvent :=
  ((SetModeMain (SetModeButton d playerIndex newMode bIsButton).fst playerIndex newMode).fst,
    (if (SetModeButton d playerIndex newMode bIsButton).snd then
      [DetectorEvent.buttonInputModeChanged playerIndex newMode]
    else [])
      ++ (if (SetModeMain (SetModeButton d playerIndex newMode bIsButton).fst
            playerIndex newMode).snd then
        [DetectorEvent.inputModeChanged playerIndex newMode]
      else []))

/-- The key identity and device-classification facts of an `FKey` used by the
detector: its `FName` (key identity; `FKey` equality compares names), and the
`IsGamepadKey` / `IsMouseButton` classifications provided by the engine. -/
structure FKey where
  name : String
  bIsGamepadKey : Bool
  bIsMouseButton : Bool
deriving DecidableEq, Repr

/-- `FInputModeDetector::IsAGamepadButton` (lines 401-418): a gamepad key that
is none of the 8 analog-stick direction keys the engine misclassifies as
buttons. -/
def IsAGamepadButton (key : FKey) : Bool :=
  key.bIsGamepadKey &&
    key.name != "Gamepad_LeftStick_Up" &&
    key.name != "Gamepad_LeftStick_Down" &&
    key.name != "Gamepad_LeftStick_Left" &&
    key.name != "Gamepad_LeftStick_Right" &&
    key.name != "Gamepad_RightStick_Up" &&
    key.name != "Gamepad_RightStick_Down" &&
    key.name != "Gamepad_RightStick_Left" &&
    key.name != "Gamepad_RightStick_Right"

/-- `FInputModeDetector::ProcessKeyOrButton` (lines 381-399). -/
def ProcessKeyOrButton (d : FInputModeDetector) (playerIndex : Nat) (key : FKey) :
    FInputModeDetector × List DetectorEvent :=
  if key.bIsGamepadKey then
    SetMode d playerIndex EInputMode.Gamepad (IsAGamepadButton key)
  else if key.bIsMouseButton then
    SetMode d playerIndex EInputMode.Mouse true
  else
    SetMode d playerIndex EInputMode.Keyboard true

/-- `FInputModeDetector::HandleKeyDownEvent` (lines 300-310). -/
def HandleKeyDownEvent (d : FInputModeDetector) (userIndex : Nat) (key : FKey) :
    FInputModeDetector × List DetectorEvent :=
  if ShouldProcessInputEvents d then ProcessKeyOrButton d userIndex key else (d, [])

/-- `FInputModeDetector::HandleAnalogInputEvent` (lines 312-323): note the
comparison is `GetAnalogValue() > GamepadAxisThreshold`, on the signed value. -/
def HandleAnalogInputEvent (d : FInputModeDetector) (userIndex : Nat) (analogValue : ℚ) :
    FInputModeDetector × List DetectorEvent :=
  if ShouldProcessInputEvents d then
    if analogValue > GamepadAxisThreshold then
      SetMode d userIndex EInputMode.Gamepad false
    else (d, [])
  else (d, [])

/-- `FInputModeDetector::HandleMouseMoveEvent` (lines 325-337): `Dist` is the
screen-space position minus the last screen-space position; the event payload
is modelled by that difference (`distX`, `distY`), and either component
exceeding `MouseMoveThreshold` in absolute value sets Mouse mode. -/
def HandleMouseMoveEvent (d : FInputModeDetector) (userIndex : Nat)
    (distX distY : ℚ) :
    FInputModeDetector × List DetectorEvent :=
  if ShouldProcessInputEvents d then
    if abs distX > MouseMoveThreshold ∨ abs distY > MouseMoveThreshold then
      SetMode d userIndex EInputMode.Mouse false
    else (d, [])
  else (d, [])

/-- `FInputModeDetector::HandleMouseButtonDownEvent` (lines 339-349). -/
def HandleMouseButtonDownEvent (d : FInputModeDetector) (userIndex : Nat) :
    FInputModeDetector × List DetectorEvent :=
  if ShouldProcessInputEvents d then SetMode d userIndex EInputMode.Mouse true else (d, [])

/-- `FInputModeDetector::HandleMouseWheelOrGestureEvent` (lines 351-361). -/
def HandleMouseWheelOrGestureEvent (d : FInputModeDetector) (userIndex : Nat) :
    FInputModeDetector × List DetectorEvent :=
  if ShouldProcessInputEvents d then SetMode d userIndex EInputMode.Mouse false else (d, [])

/-- One raw input event as delivered to the detector's handlers, carrying the
payload fields the handlers actually read. -/
inductive InputEvent where
  | keyDown (userIndex : Nat) (key : FKey)
  | analog (userIndex : Nat) (analogValue : ℚ)
  | mouseMove (userIndex : Nat) (distX distY : ℚ)
  | mouseButtonDown (userIndex : Nat)
  | wheelOrGesture (userIndex : Nat)
deriving DecidableEq, Repr

/-- The player slot an event targets (`GetUserIndex()` of the event). -/
def eventUserIndex : InputEvent → Nat
  | InputEvent.keyDown u _ => u
  | InputEvent.analog u _ => u
  | InputEvent.mouseMove u _ _ => u
  | InputEvent.mouseButtonDown u => u
  | InputEvent.wheelOrGesture u => u

/-- Dispatch one raw event to the corresponding handler. -/
def processEvent (d : FInputModeDetector) : InputEvent → FInputModeDetector × List DetectorEvent
  | InputEvent.keyDown u key => HandleKeyDownEvent d u key
  | InputEvent.analog u v => HandleAnalogInputEvent d u v
  | InputEvent.mouseMove u dx dy => HandleMouseMoveEvent d u dx dy
  | InputEvent.mouseButtonDown u => HandleMouseButtonDownEvent d u
  | InputEvent.wheelOrGesture u => HandleMouseWheelOrGestureEvent d u

/-- Process a sequence of raw events, returning the final detector state. -/
def processEvents (d : FInputModeDetector) : List InputEvent → FInputModeDetector
  | [] => d
  | e :: es => processEvents (processEvent d e).fst es

/-- Process a sequence of raw events, also collecting every notification fired
along the way, in order. -/
def processEventsWithTrace (d : FInputModeDetector) :
    List InputEvent → FInputModeDetector × List DetectorEvent
  | [] => (d, [])
  | e :: es =>
      ((processEventsWithTrace (processEvent d e).fst es).fst,
        (processEvent d e).snd ++ (processEventsWithTrace (processEvent d e).fst es).snd)

/-- The number of main-mode-changed (`OnInputModeChanged`) notifications in a
notification trace. -/
def mainChangedCount (evts : List DetectorEvent) : Nat :=
  (evts.filter fun ev =>
    match ev with
    | DetectorEvent.inputModeChanged _ _ => true
    | _ => false).length

/-- The number of button-mode-changed (`OnButtonInputModeChanged`)
notifications in a notification trace. -/
def buttonChangedCount (evts : List DetectorEvent) : Nat :=
  (evts.filter fun ev =>
    match ev with
    | DetectorEvent.buttonInputModeChanged _ _ => true
    | _ => false).length

/-! ### List lemmas about `getD`, `set`, append and `replicate` -/

theorem getD_set_self {α : Type} :
    ∀ (l : List α) (i : Nat) (a dflt : α), i < l.length → (l.set i a).getD i dflt = a
  | _ :: _, 0, _, _, _ => rfl
  | _ :: xs, i+1, a, dflt, h => getD_set_self xs i a dflt (Nat.lt_of_succ_lt_succ h)

theorem getD_set_ne {α : Type} :
    ∀ (l : List α) (i j : Nat) (a dflt : α), i ≠ j → (l.set i a).getD j dflt = l.getD j dflt
  | [], _, _, _, _, _ => rfl
  | _ :: _, 0, 0, _, _, h => absurd rfl h
  | _ :: _, 0, _+1, _, _, _ => rfl
  | _ :: _, _+1, 0, _, _, _ => rfl
  | _ :: xs, i+1, j+1, a, dflt, h =>
      getD_set_ne xs i j a dflt (fun e => h (by rw [e]))

theorem getD_append_left {α : Type} :
    ∀ (l t : List α) (j : Nat) (dflt : α), j < l.length → (l ++ t).getD j dflt = l.getD j dflt
  | [], _, j, _, h => absurd h (Nat.not_lt_zero j)
  | _ :: _, _, 0, _, _ => rfl
  | _ :: xs, t, j+1, dflt, h => getD_append_left xs t j dflt (Nat.lt_of_succ_lt_succ h)

theorem getD_append_right {α : Type} :
    ∀ (l t : List α) (j : Nat) (dflt : α), l.length ≤ j →
      (l ++ t).getD j dflt = t.getD (j - l.length) dflt
  | [], _, _, _, _ => rfl
  | x :: xs, _, 0, _, h => absurd h (by simp)
  | _ :: xs, t, j+1, dflt, h => by
      rw [List.length_cons, Nat.succ_sub_succ]
      exact getD_append_right xs t j dflt (Nat.le_of_succ_le_succ h)

theorem getD_replicate_lt {α : Type} :
    ∀ (n j : Nat) (a dflt : α), j < n → (List.replicate n a).getD j dflt = a
  | 0, j, _, _, h => absurd h (Nat.not_lt_zero j)
  | _+1, 0, _, _, _ => rfl
  | n+1, j+1, a, dflt, h => getD_replicate_lt n j a dflt (Nat.lt_of_succ_lt_succ h)

theorem getD_length_le {α : Type} :
    ∀ (l : List α) (j : Nat) (dflt : α), l.length ≤ j → l.getD j dflt = dflt
  | [], _, _, _ => rfl
  | x :: xs, 0, _, h => absurd h (by simp)
  | _ :: xs, j+1, dflt, h => getD_length_le xs j dflt (Nat.le_of_succ_le_succ h)

/-! ### Lemmas about the auto-growing `SetNum` model -/

theorem setNumGrowIfNeeded_length_of_lt (a : List EInputMode) (i : Nat)
    (h : i < a.length) : (setNumGrowIfNeeded a i).length = a.length := by
  unfold setNumGrowIfNeeded
  rw [if_neg (Nat.not_le_of_lt h)]

theorem setNumGrowIfNeeded_eq_of_lt (a : List EInputMode) (i : Nat)
    (h : i < a.length) : setNumGrowIfNeeded a i = a := by
  unfold setNumGrowIfNeeded
  rw [if_neg (Nat.not_le_of_lt h)]

theorem setNumGrowIfNeeded_length_of_le (a : List EInputMode) (i : Nat)
    (h : a.length ≤ i) : (setNumGrowIfNeeded a i).length = i + 1 := by
  unfold setNumGrowIfNeeded
  rw [if_pos h]
  simp [Nat.add_sub_cancel' (Nat.le_succ_of_le h)]

theorem lt_setNumGrowIfNeeded_length (a : List EInputMode) (i : Nat) :
    i < (setNumGrowIfNeeded a i).length := by
  by_cases h : a.length ≤ i
  · rw [setNumGrowIfNeeded_length_of_le a i h]
    exact Nat.lt_succ_self i
  · rw [setNumGrowIfNeeded_length_of_lt a i (Nat.lt_of_not_le h)]
    exact Nat.lt_of_not_le h

theorem setNumGrowIfNeeded_getD_lt (a : List EInputMode) (i j : Nat) (dflt : EInputMode)
    (h : j < a.length) : (setNumGrowIfNeeded a i).getD j dflt = a.getD j dflt := by
  unfold setNumGrowIfNeeded
  by_cases hle : a.length ≤ i
  · rw [if_pos hle]
    exact getD_append_left _ _ _ _ h
  · rw [if_neg hle]

theorem setNumGrowIfNeeded_getD_pad (a : List EInputMode) (i j : Nat) (dflt : EInputMode)
    (h1 : a.length ≤ j) (h2 : j ≤ i) :
    (setNumGrowIfNeeded a i).getD j dflt = EInputMode.Unknown := by
  unfold setNumGrowIfNeeded
  rw [if_pos (Nat.le_trans h1 h2), getD_append_right _ _ _ _ h1,
    getD_replicate_lt]
  exact Nat.sub_lt_sub_right h1 (Nat.lt_succ_of_le h2)

/-! ### Facts about the two halves of `SetMode` -/

theorem SetModeButton_main_array (d : FInputModeDetector) (s : Nat) (m : EInputMode)
    (bb : Bool) :
    (SetModeButton d s m bb).fst.LastInputModeByPlayer = d.LastInputModeByPlayer := by
  unfold SetModeButton
  split <;> rfl

theorem SetModeButton_ignore (d : FInputModeDetector) (s : Nat) (m : EInputMode) (bb : Bool) :
    (SetModeButton d s m bb).fst.bIgnoreEvents = d.bIgnoreEvents := by
  unfold SetModeButton
  split <;> rfl

theorem SetModeMain_button_array (d : FInputModeDetector) (s : Nat) (m : EInputMode) :
    (SetModeMain d s m).fst.LastButtonPressByPlayer = d.LastButtonPressByPlayer := by
  unfold SetModeMain
  split <;> rfl

theorem SetModeMain_ignore (d : FInputModeDetector) (s : Nat) (m : EInputMode) :
    (SetModeMain d s m).fst.bIgnoreEvents = d.bIgnoreEvents := by
  unfold SetModeMain
  split <;> rfl

theorem SetModeButton_false (d : FInputModeDetector) (s : Nat) (m : EInputMode) :
    SetModeButton d s m false = (d, false) := by
  unfold SetModeButton
  rw [if_neg]
  intro h
  exact Bool.false_ne_true h.1

theorem GetLastInputMode_SetModeButton (d : FInputModeDetector) (s : Nat) (m : EInputMode)
    (bb : Bool) (j : Nat) :
    GetLastInputMode (SetModeButton d s m bb).fst j = GetLastInputMode d j := by
  simp only [GetLastInputMode, SetModeButton_main_array]

theorem GetLastButtonInputMode_SetModeMain (d : FInputModeDetector) (s : Nat) (m : EInputMode)
    (j : Nat) :
    GetLastButtonInputMode (SetModeMain d s m).fst j = GetLastButtonInputMode d j := by
  simp only [GetLastButtonInputMode, SetModeMain_button_array]

theorem GetLastInputMode_SetModeMain_self (d : FInputModeDetector) (s : Nat) (m : EInputMode)
    (hm : m ≠ EInputMode.Unknown) :
    GetLastInputMode (SetModeMain d s m).fst s = m := by
  unfold SetModeMain
  by_cases h : m ≠ EInputMode.Unknown ∧ m ≠ GetLastInputMode d s
  · rw [if_pos h]
    simp only [GetLastInputMode]
    exact getD_set_self _ s m _ (lt_setNumGrowIfNeeded_length _ s)
  · rw [if_neg h]
    push_neg at h
    exact (h hm).symm

theorem GetLastButtonInputMode_SetModeButton_self (d : FInputModeDetector) (s : Nat)
    (m : EInputMode) (hm : m ≠ EInputMode.Unknown) :
    GetLastButtonInputMode (SetModeButton d s m true).fst s = m := by
  unfold SetModeButton
  by_cases h : true = true ∧ m ≠ EInputMode.Unknown ∧ m ≠ GetLastButtonInputMode d s
  · rw [if_pos h]
    simp only [GetLastButtonInputMode]
    exact getD_set_self _ s m _ (lt_setNumGrowIfNeeded_length _ s)
  · rw [if_neg h]
    push_neg at h
    exact (h rfl hm).symm

theorem GetLastInputMode_SetModeMain_ne (d : FInputModeDetector) (s : Nat) (m : EInputMode)
    (j : Nat) (hj : j ≠ s) (hlt : j < d.LastInputModeByPlayer.length) :
    GetLastInputMode (SetModeMain d s m).fst j = GetLastInputMode d j := by
  unfold SetModeMain
  split
  · simp only [GetLastInputMode]
    rw [getD_set_ne _ s j m _ (fun e => hj e.symm), setNumGrowIfNeeded_getD_lt _ _ _ _ hlt]
  · rfl

theorem GetLastButtonInputMode_SetModeButton_ne (d : FInputModeDetector) (s : Nat)
    (m : EInputMode) (bb : Bool) (j : Nat) (hj : j ≠ s)
    (hlt : j < d.LastButtonPressByPlayer.length) :
    GetLastButtonInputMode (SetModeButton d s m bb).fst j = GetLastButtonInputMode d j := by
  unfold SetModeButton
  split
  · simp only [GetLastButtonInputMode]
    rw [getD_set_ne _ s j m _ (fun e => hj e.symm), setNumGrowIfNeeded_getD_lt _ _ _ _ hlt]
  · rfl

theorem SetModeMain_snd_true_iff (d : FInputModeDetector) (s : Nat) (m : EInputMode) :
    (SetModeMain d s m).snd = true ↔
      (m ≠ EInputMode.Unknown ∧ m ≠ GetLastInputMode d s) := by
  unfold SetModeMain
  by_cases h : m ≠ EInputMode.Unknown ∧ m ≠ GetLastInputMode d s
  · rw [if_pos h]
    simpa using h
  · rw [if_neg h]
    simpa using h

theorem SetModeButton_snd_true_iff (d : FInputModeDetector) (s : Nat) (m : EInputMode)
    (bb : Bool) :
    (SetModeButton d s m bb).snd = true ↔
      (bb = true ∧ m ≠ EInputMode.Unknown ∧ m ≠ GetLastButtonInputMode d s) := by
  unfold SetModeButton
  by_cases h : bb = true ∧ m ≠ EInputMode.Unknown ∧ m ≠ GetLastButtonInputMode d s
  · rw [if_pos h]
    simpa using h
  · rw [if_neg h]
    simpa using h

theorem SetModeMain_fst_of_not (d : FInputModeDetector) (s : Nat) (m : EInputMode)
    (h : ¬(m ≠ EInputMode.Unknown ∧ m ≠ GetLastInputMode d s)) :
    (SetModeMain d s m).fst = d := by
  unfold SetModeMain
  rw [if_neg h]

theorem SetModeButton_fst_of_not (d : FInputModeDetector) (s : Nat) (m : EInputMode) (bb : Bool)
    (h : ¬(bb = true ∧ m ≠ EInputMode.Unknown ∧ m ≠ GetLastButtonInputMode d s)) :
    (SetModeButton d s m bb).fst = d := by
  unfold SetModeButton
  rw [if_neg h]

theorem SetModeMain_length_of_lt (d : FInputModeDetector) (s : Nat) (m : EInputMode)
    (h : s < d.LastInputModeByPlayer.length) :
    (SetModeMain d s m).fst.LastInputModeByPlayer.length = d.LastInputModeByPlayer.length := by
  unfold SetModeMain
  split
  · simp only [List.length_set]
    exact setNumGrowIfNeeded_length_of_lt _ _ h
  · rfl

theorem SetModeButton_length_of_lt (d : FInputModeDetector) (s : Nat) (m : EInputMode)
    (bb : Bool) (h : s < d.LastButtonPressByPlayer.length) :
    (SetModeButton d s m bb).fst.LastButtonPressByPlayer.length
      = d.LastButtonPressByPlayer.length := by
  unfold SetModeButton
  split
  · simp only [List.length_set]
    exact setNumGrowIfNeeded_length_of_lt _ _ h
  · rfl

theorem SetModeMain_length_grow (d : FInputModeDetector) (s : Nat) (m : EInputMode)
    (hs : d.LastInputModeByPlayer.length ≤ s) (hm : m ≠ EInputMode.Unknown)
    (hne : m ≠ GetLastInputMode d s) :
    (SetModeMain d s m).fst.LastInputModeByPlayer.length = s + 1 := by
  unfold SetModeMain
  rw [if_pos ⟨hm, hne⟩]
  simp only [List.length_set]
  exact setNumGrowIfNeeded_length_of_le _ _ hs

theorem SetModeButton_length_grow (d : FInputModeDetector) (s : Nat) (m : EInputMode)
    (hs : d.LastButtonPressByPlayer.length ≤ s) (hm : m ≠ EInputMode.Unknown)
    (hne : m ≠ GetLastButtonInputMode d s) :
    (SetModeButton d s m true).fst.LastButtonPressByPlayer.length = s + 1 := by
  unfold SetModeButton
  rw [if_pos ⟨rfl, hm, hne⟩]
  simp only [List.length_set]
  exact setNumGrowIfNeeded_length_of_le _ _ hs

/-! ### Facts about `SetMode` and the notifications it fires -/

theorem SetMode_fst (d : FInputModeDetector) (s : Nat) (m : EInputMode) (bb : Bool) :
    (SetMode d s m bb).fst = (SetModeMain (SetModeButton d s m bb).fst s m).fst := rfl

theorem SetMode_ignore (d : FInputModeDetector) (s : Nat) (m : EInputMode) (bb : Bool) :
    (SetMode d s m bb).fst.bIgnoreEvents = d.bIgnoreEvents := by
  rw [SetMode_fst, SetModeMain_ignore, SetModeButton_ignore]

theorem SetMode_main_event_iff (d : FInputModeDetector) (s : Nat) (m : EInputMode) (bb : Bool)
    (j : Nat) (mm : EInputMode) :
    DetectorEvent.inputModeChanged j mm ∈ (SetMode d s m bb).snd ↔
      ((SetModeMain (SetModeButton d s m bb).fst s m).snd = true ∧ j = s ∧ mm = m) := by
  unfold SetMode
  cases hb : (SetModeButton d s m bb).snd <;>
    cases hm2 : (SetModeMain (SetModeButton d s m bb).fst s m).snd <;>
      simp [hb, hm2]

theorem SetMode_button_event_iff (d : FInputModeDetector) (s : Nat) (m : EInputMode) (bb : Bool)
    (j : Nat) (mm : EInputMode) :
    DetectorEvent.buttonInputModeChanged j mm ∈ (SetMode d s m bb).snd ↔
      ((SetModeButton d s m bb).snd = true ∧ j = s ∧ mm = m) := by
  unfold SetMode
  cases hb : (SetModeButton d s m bb).snd <;>
    cases hm2 : (SetModeMain (SetModeButton d s m bb).fst s m).snd <;>
      simp [hb, hm2]

theorem SetMode_main_change_iff (d : FInputModeDetector) (s : Nat) (m : EInputMode) (bb : Bool)
    (hm : m ≠ EInputMode.Unknown) :
    (∃ mm, DetectorEvent.inputModeChanged s mm ∈ (SetMode d s m bb).snd) ↔
      GetLastInputMode (SetMode d s m bb).fst s ≠ GetLastInputMode d s := by
  have hread : GetLastInputMode (SetModeButton d s m bb).fst s = GetLastInputMode d s :=
    GetLastInputMode_SetModeButton d s m bb s
  constructor
  · rintro ⟨mm, hmem⟩
    rw [SetMode_main_event_iff] at hmem
    obtain ⟨hflag, -, rfl⟩ := hmem
    have hne : mm ≠ GetLastInputMode d s := by
      have h2 := (SetModeMain_snd_true_iff _ s mm).mp hflag
      rw [hread] at h2
      exact h2.2
    rw [SetMode_fst, GetLastInputMode_SetModeMain_self _ s mm hm]
    exact hne
  · intro hch
    by_cases hne : m = GetLastInputMode d s
    · exfalso
      apply hch
      rw [SetMode_fst, SetModeMain_fst_of_not, hread]
      rw [hread]
      intro hc
      exact hc.2 hne
    · refine ⟨m, ?_⟩
      rw [SetMode_main_event_iff]
      refine ⟨?_, rfl, rfl⟩
      rw [SetModeMain_snd_true_iff, hread]
      exact ⟨hm, hne⟩

theorem SetMode_button_change_iff (d : FInputModeDetector) (s : Nat) (m : EInputMode) (bb : Bool)
    (hm : m ≠ EInputMode.Unknown) :
    (∃ mm, DetectorEvent.buttonInputModeChanged s mm ∈ (SetMode d s m bb).snd) ↔
      GetLastButtonInputMode (SetMode d s m bb).fst s ≠ GetLastButtonInputMode d s := by
  have hbtn : GetLastButtonInputMode (SetMode d s m bb).fst s
      = GetLastButtonInputMode (SetModeButton d s m bb).fst s := by
    rw [SetMode_fst]
    exact GetLastButtonInputMode_SetModeMain _ s m s
  cases bb with
  | false =>
    rw [hbtn, SetModeButton_false]
    simp [SetMode_button_event_iff, SetModeButton_false]
  | true =>
    constructor
    · rintro ⟨mm, hmem⟩
      rw [SetMode_button_event_iff] at hmem
      obtain ⟨hflag, -, rfl⟩ := hmem
      have h2 := (SetModeButton_snd_true_iff d s mm true).mp hflag
      rw [hbtn, GetLastButtonInputMode_SetModeButton_self d s mm hm]
      exact h2.2.2
    · intro hch
      by_cases hne : m = GetLastButtonInputMode d s
      · exfalso
        apply hch
        rw [hbtn, SetModeButton_fst_of_not]
        intro hc
        exact hc.2.2 hne
      · refine ⟨m, ?_⟩
        rw [SetMode_button_event_iff]
        refine ⟨?_, rfl, rfl⟩
        rw [SetModeButton_snd_true_iff]
        exact ⟨rfl, hm, hne⟩

/-- Any handler call on a suppressed detector (`bIgnoreEvents` set) is a
complete no-op: unchanged state, no notifications. -/
theorem processEvent_ignored (d : FInputModeDetector) (e : InputEvent)
    (h : d.bIgnoreEvents = true) : processEvent d e = (d, []) := by
  cases e <;>
    simp [processEvent, HandleKeyDownEvent, HandleAnalogInputEvent, HandleMouseMoveEvent,
      HandleMouseButtonDownEvent, HandleMouseWheelOrGestureEvent, ShouldProcessInputEvents, h]

/-- A main-mode-changed notification for the slot an event targets fires
exactly when the observable main mode of that slot differs across the call. -/
theorem processEvent_main_change_iff (d : FInputModeDetector) (e : InputEvent) :
    (∃ mm, DetectorEvent.inputModeChanged (eventUserIndex e) mm ∈ (processEvent d e).snd) ↔
      GetLastInputMode (processEvent d e).fst (eventUserIndex e)
        ≠ GetLastInputMode d (eventUserIndex e) := by
  cases hbv : d.bIgnoreEvents with
  | true =>
    rw [processEvent_ignored d e hbv]
    simp
  | false =>
    have hsp : ShouldProcessInputEvents d = true := by
      simp [ShouldProcessInputEvents, hbv]
    cases e with
    | keyDown u key =>
      simp only [processEvent, eventUserIndex]
      unfold HandleKeyDownEvent
      rw [if_pos hsp]
      unfold ProcessKeyOrButton
      split
      · exact SetMode_main_change_iff _ _ _ _ (by decide)
      · split
        · exact SetMode_main_change_iff _ _ _ _ (by decide)
        · exact SetMode_main_change_iff _ _ _ _ (by decide)
    | analog u v =>
      simp only [processEvent, eventUserIndex]
      unfold HandleAnalogInputEvent
      rw [if_pos hsp]
      split
      · exact SetMode_main_change_iff _ _ _ _ (by decide)
      · simp
    | mouseMove u dx dy =>
      simp only [processEvent, eventUserIndex]
      unfold HandleMouseMoveEvent
      rw [if_pos hsp]
      split
      · exact SetMode_main_change_iff _ _ _ _ (by decide)
      · simp
    | mouseButtonDown u =>
      simp only [processEvent, eventUserIndex]
      unfold HandleMouseButtonDownEvent
      rw [if_pos hsp]
      exact SetMode_main_change_iff _ _ _ _ (by decide)
    | wheelOrGesture u =>
      simp only [processEvent, eventUserIndex]
      unfold HandleMouseWheelOrGestureEvent
      rw [if_pos hsp]
      exact SetMode_main_change_iff _ _ _ _ (by decide)

/-- A button-mode-changed notification for the slot an event targets fires
exactly when the observable button mode of that slot differs across the call. -/
theorem processEvent_button_change_iff (d : FInputModeDetector) (e : InputEvent) :
    (∃ mm, DetectorEvent.buttonInputModeChanged (eventUserIndex e) mm ∈ (processEvent d e).snd) ↔
      GetLastButtonInputMode (processEvent d e).fst (eventUserIndex e)
        ≠ GetLastButtonInputMode d (eventUserIndex e) := by
  cases hbv : d.bIgnoreEvents with
  | true =>
    rw [processEvent_ignored d e hbv]
    simp
  | false =>
    have hsp : ShouldProcessInputEvents d = true := by
      simp [ShouldProcessInputEvents, hbv]
    cases e with
    | keyDown u key =>
      simp only [processEvent, eventUserIndex]
      unfold HandleKeyDownEvent
      rw [if_pos hsp]
      unfold ProcessKeyOrButton
      split
      · exact SetMode_button_change_iff _ _ _ _ (by decide)
      · split
        · exact SetMode_button_change_iff _ _ _ _ (by decide)
        · exact SetMode_button_change_iff _ _ _ _ (by decide)
    | analog u v =>
      simp only [processEvent, eventUserIndex]
      unfold HandleAnalogInputEvent
      rw [if_pos hsp]
      split
      · exact SetMode_button_change_iff _ _ _ _ (by decide)
      · simp
    | mouseMove u dx dy =>
      simp only [processEvent, eventUserIndex]
      unfold HandleMouseMoveEvent
      rw [if_pos hsp]
      split
      · exact SetMode_button_change_iff _ _ _ _ (by decide)
      · simp
    | mouseButtonDown u =>
      simp only [processEvent, eventUserIndex]
      unfold HandleMouseButtonDownEvent
      rw [if_pos hsp]
      exact SetMode_button_change_iff _ _ _ _ (by decide)
    | wheelOrGesture u =>
      simp only [processEvent, eventUserIndex]
      unfold HandleMouseWheelOrGestureEvent
      rw [if_pos hsp]
      exact SetMode_button_change_iff _ _ _ _ (by decide)

theorem mainChangedCount_SetMode (d : FInputModeDetector) (s : Nat) (m : EInputMode)
    (bb : Bool) :
    mainChangedCount (SetMode d s m bb).snd
      = if (SetModeMain (SetModeButton d s m bb).fst s m).snd = true then 1 else 0 := by
  unfold SetMode
  cases hb : (SetModeButton d s m bb).snd <;>
    cases hm2 : (SetModeMain (SetModeButton d s m bb).fst s m).snd <;>
      simp [hb, hm2, mainChangedCount]

theorem mainChangedCount_append (a b : List DetectorEvent) :
    mainChangedCount (a ++ b) = mainChangedCount a + mainChangedCount b := by
  simp [mainChangedCount, List.filter_append]

/-- Two successive mouse-move events on the same slot, both over the movement
threshold, fire exactly one main-mode-changed notification, provided the
slot's main mode was not already Mouse. -/
theorem twoMouseMoves_fire_once (d : FInputModeDetector) (s : Nat) (dx1 dy1 dx2 dy2 : ℚ)
    (hig : d.bIgnoreEvents = false)
    (hm : GetLastInputMode d s ≠ EInputMode.Mouse)
    (h1 : abs dx1 > MouseMoveThreshold ∨ abs dy1 > MouseMoveThreshold)
    (h2 : abs dx2 > MouseMoveThreshold ∨ abs dy2 > MouseMoveThreshold) :
    mainChangedCount (processEventsWithTrace d
      [InputEvent.mouseMove s dx1 dy1, InputEvent.mouseMove s dx2 dy2]).snd = 1 := by
  have hsp : ShouldProcessInputEvents d = true := by
    simp [ShouldProcessInputEvents, hig]
  have e1eq : processEvent d (InputEvent.mouseMove s dx1 dy1)
      = SetMode d s EInputMode.Mouse false := by
    simp only [processEvent]
    unfold HandleMouseMoveEvent
    rw [if_pos hsp, if_pos h1]
  have hd1ig : (SetMode d s EInputMode.Mouse false).fst.bIgnoreEvents = false := by
    rw [SetMode_ignore]
    exact hig
  have hsp1 : ShouldProcessInputEvents (SetMode d s EInputMode.Mouse false).fst = true := by
    simp [ShouldProcessInputEvents, hd1ig]
  have e2eq : processEvent (SetMode d s EInputMode.Mouse false).fst
      (InputEvent.mouseMove s dx2 dy2)
      = SetMode (SetMode d s EInputMode.Mouse false).fst s EInputMode.Mouse false := by
    simp only [processEvent]
    unfold HandleMouseMoveEvent
    rw [if_pos hsp1, if_pos h2]
  have hd1main : GetLastInputMode (SetMode d s EInputMode.Mouse false).fst s
      = EInputMode.Mouse := by
    rw [SetMode_fst]
    exact GetLastInputMode_SetModeMain_self _ s _ (by decide)
  have hc1 : mainChangedCount (SetMode d s EInputMode.Mouse false).snd = 1 := by
    rw [mainChangedCount_SetMode, if_pos]
    rw [SetModeButton_false]
    rw [SetModeMain_snd_true_iff]
    exact ⟨by decide, fun hcc => hm hcc.symm⟩
  have hc2 : mainChangedCount
      (SetMode (SetMode d s EInputMode.Mouse false).fst s EInputMode.Mouse false).snd = 0 := by
    rw [mainChangedCount_SetMode, if_neg]
    rw [SetModeButton_false]
    rw [SetModeMain_snd_true_iff]
    intro hcc
    exact hcc.2 hd1main.symm
  show mainChangedCount (_ ++ (_ ++ _)) = 1
  rw [e1eq]
  rw [e2eq]
  rw [mainChangedCount_append, mainChangedCount_append, hc1, hc2]
  rfl

/-! ### The no-Unknown invariant in the absence of auto-growth -/

theorem getD_replicate_self {α : Type} (n j : Nat) (a : α) :
    (List.replicate n a).getD j a = a := by
  by_cases h : j < n
  · exact getD_replicate_lt n j a a h
  · refine getD_length_le _ _ _ ?_
    rw [List.length_replicate]
    exact Nat.le_of_not_lt h

/-- Both arrays still have their seeded length 4 and no slot of either
observably reads `Unknown`. -/
def DetectorInv (d : FInputModeDetector) : Prop :=
  d.LastInputModeByPlayer.length = 4 ∧ d.LastButtonPressByPlayer.length = 4 ∧
    (∀ i, GetLastInputMode d i ≠ EInputMode.Unknown) ∧
    (∀ i, GetLastButtonInputMode d i ≠ EInputMode.Unknown)

theorem detectorInv_initial : DetectorInv initialDetector := by
  refine ⟨by decide, by decide, ?_, ?_⟩ <;> intro i
  · show (List.replicate 4 DefaultInputMode).getD i DefaultInputMode ≠ EInputMode.Unknown
    rw [getD_replicate_self]
    decide
  · show (List.replicate 4 DefaultButtonInputMode).getD i
        DefaultButtonInputMode ≠ EInputMode.Unknown
    rw [getD_replicate_self]
    decide

theorem detectorInv_SetModeMain (d : FInputModeDetector) (s : Nat) (m : EInputMode)
    (h4 : d.LastInputModeByPlayer.length = 4) (hs : s < 4)
    (hinv : ∀ i, GetLastInputMode d i ≠ EInputMode.Unknown) :
    (SetModeMain d s m).fst.LastInputModeByPlayer.length = 4 ∧
      ∀ i, GetLastInputMode (SetModeMain d s m).fst i ≠ EInputMode.Unknown := by
  have hslt : s < d.LastInputModeByPlayer.length := by rw [h4]; exact hs
  have hlen : (SetModeMain d s m).fst.LastInputModeByPlayer.length = 4 := by
    rw [SetModeMain_length_of_lt d s m hslt, h4]
  refine ⟨hlen, ?_⟩
  intro i
  by_cases hi : i = s
  · subst hi
    unfold SetModeMain
    by_cases hc : m ≠ EInputMode.Unknown ∧ m ≠ GetLastInputMode d i
    · rw [if_pos hc]
      simp only [GetLastInputMode]
      rw [getD_set_self _ _ _ _ (lt_setNumGrowIfNeeded_length _ _)]
      exact hc.1
    · rw [if_neg hc]
      exact hinv i
  · by_cases hilt : i < d.LastInputModeByPlayer.length
    · rw [GetLastInputMode_SetModeMain_ne d s m i hi hilt]
      exact hinv i
    · have : GetLastInputMode (SetModeMain d s m).fst i = DefaultInputMode := by
        refine getD_length_le _ _ _ ?_
        rw [hlen, ← h4]
        exact Nat.le_of_not_lt hilt
      rw [this]
      decide

theorem detectorInv_SetModeButton (d : FInputModeDetector) (s : Nat) (m : EInputMode)
    (bb : Bool) (h4 : d.LastButtonPressByPlayer.length = 4) (hs : s < 4)
    (hinv : ∀ i, GetLastButtonInputMode d i ≠ EInputMode.Unknown) :
    (SetModeButton d s m bb).fst.LastButtonPressByPlayer.length = 4 ∧
      ∀ i, GetLastButtonInputMode (SetModeButton d s m bb).fst i ≠ EInputMode.Unknown := by
  have hslt : s < d.LastButtonPressByPlayer.length := by rw [h4]; exact hs
  have hlen : (SetModeButton d s m bb).fst.LastButtonPressByPlayer.length = 4 := by
    rw [SetModeButton_length_of_lt d s m bb hslt, h4]
  refine ⟨hlen, ?_⟩
  intro i
  by_cases hi : i = s
  · subst hi
    unfold SetModeButton
    by_cases hc : bb = true ∧ m ≠ EInputMode.Unknown ∧ m ≠ GetLastButtonInputMode d i
    · rw [if_pos hc]
      simp only [GetLastButtonInputMode]
      rw [getD_set_self _ _ _ _ (lt_setNumGrowIfNeeded_length _ _)]
      exact hc.2.1
    · rw [if_neg hc]
      exact hinv i
  · by_cases hilt : i < d.LastButtonPressByPlayer.length
    · rw [GetLastButtonInputMode_SetModeButton_ne d s m bb i hi hilt]
      exact hinv i
    · have : GetLastButtonInputMode (SetModeButton d s m bb).fst i = DefaultButtonInputMode := by
        refine getD_length_le _ _ _ ?_
        rw [hlen, ← h4]
        exact Nat.le_of_not_lt hilt
      rw [this]
      decide

theorem detectorInv_SetMode (d : FInputModeDetector) (s : Nat) (m : EInputMode) (bb : Bool)
    (hs : s < 4) (hinv : DetectorInv d) : DetectorInv (SetMode d s m bb).fst := by
  obtain ⟨h1, h2, h3, h4⟩ := hinv
  obtain ⟨hb1, hb2⟩ := detectorInv_SetModeButton d s m bb h2 hs h4
  have hmain_arr : (SetModeButton d s m bb).fst.LastInputModeByPlayer.length = 4 := by
    rw [SetModeButton_main_array]
    exact h1
  have hmain_inv : ∀ i,
      GetLastInputMode (SetModeButton d s m bb).fst i ≠ EInputMode.Unknown := by
    intro i
    rw [GetLastInputMode_SetModeButton]
    exact h3 i
  obtain ⟨hm1, hm2⟩ := detectorInv_SetModeMain (SetModeButton d s m bb).fst s m hmain_arr hs
    hmain_inv
  refine ⟨?_, ?_, ?_, ?_⟩
  · rw [SetMode_fst]
    exact hm1
  · rw [SetMode_fst, SetModeMain_button_array]
    exact hb1
  · intro i
    rw [SetMode_fst]
    exact hm2 i
  · intro i
    rw [SetMode_fst, GetLastButtonInputMode_SetModeMain]
    exact hb2 i

theorem detectorInv_processEvent (d : FInputModeDetector) (e : InputEvent)
    (hs : eventUserIndex e < 4) (hinv : DetectorInv d) :
    DetectorInv (processEvent d e).fst := by
  cases hbv : d.bIgnoreEvents with
  | true =>
    rw [processEvent_ignored d e hbv]
    exact hinv
  | false =>
    have hsp : ShouldProcessInputEvents d = true := by
      simp [ShouldProcessInputEvents, hbv]
    cases e with
    | keyDown u key =>
      simp only [eventUserIndex] at hs
      simp only [processEvent]
      unfold HandleKeyDownEvent
      rw [if_pos hsp]
      unfold ProcessKeyOrButton
      split
      · exact detectorInv_SetMode _ _ _ _ hs hinv
      · split
        · exact detectorInv_SetMode _ _ _ _ hs hinv
        · exact detectorInv_SetMode _ _ _ _ hs hinv
    | analog u v =>
      simp only [eventUserIndex] at hs
      simp only [processEvent]
      unfold HandleAnalogInputEvent
      rw [if_pos hsp]
      split
      · exact detectorInv_SetMode _ _ _ _ hs hinv
      · exact hinv
    | mouseMove u dx dy =>
      simp only [eventUserIndex] at hs
      simp only [processEvent]
      unfold HandleMouseMoveEvent
      rw [if_pos hsp]
      split
      · exact detectorInv_SetMode _ _ _ _ hs hinv
      · exact hinv
    | mouseButtonDown u =>
      simp only [eventUserIndex] at hs
      simp only [processEvent]
      unfold HandleMouseButtonDownEvent
      rw [if_pos hsp]
      exact detectorInv_SetMode _ _ _ _ hs hinv
    | wheelOrGesture u =>
      simp only [eventUserIndex] at hs
      simp only [processEvent]
      unfold HandleMouseWheelOrGestureEvent
      rw [if_pos hsp]
      exact detectorInv_SetMode _ _ _ _ hs hinv

theorem detectorInv_processEvents (es : List InputEvent) :
    ∀ (d : FInputModeDetector), (∀ e ∈ es, eventUserIndex e < 4) → DetectorInv d →
      DetectorInv (processEvents d es) := by
  induction es with
  | nil =>
    intro d _ hinv
    exact hinv
  | cons e es ih =>
    intro d hall hinv
    unfold processEvents
    exact ih _ (fun x hx => hall x (List.mem_cons_of_mem e hx))
      (detectorInv_processEvent d e (hall e (List.mem_cons_self e es)) hinv)

theorem buttonChangedCount_SetMode (d : FInputModeDetector) (s : Nat) (m : EInputMode)
    (bb : Bool) :
    buttonChangedCount (SetMode d s m bb).snd
      = if (SetModeButton d s m bb).snd = true then 1 else 0 := by
  unfold SetMode
  cases hb : (SetModeButton d s m bb).snd <;>
    cases hm2 : (SetModeMain (SetModeButton d s m bb).fst s m).snd <;>
      simp [hb, hm2, buttonChangedCount]

/-- The names of the 8 analog-stick direction keys excluded by
`FInputModeDetector::IsAGamepadButton`. -/
def stickKeyNames : List String :=
  ["Gamepad_LeftStick_Up", "Gamepad_LeftStick_Down",
   "Gamepad_LeftStick_Left", "Gamepad_LeftStick_Right",
   "Gamepad_RightStick_Up", "Gamepad_RightStick_Down",
   "Gamepad_RightStick_Left", "Gamepad_RightStick_Right"]

theorem IsAGamepadButton_of_mem (key : FKey) (h : key.name ∈ stickKeyNames) :
    IsAGamepadButton key = false := by
  simp only [stickKeyNames, List.mem_cons, List.not_mem_nil, or_false] at h
  unfold IsAGamepadButton
  rcases h with h | h | h | h | h | h | h | h <;> simp [h]

theorem IsAGamepadButton_of_not_mem (key : FKey) (hgp : key.bIsGamepadKey = true)
    (h : key.name ∉ stickKeyNames) : IsAGamepadButton key = true := by
  simp only [stickKeyNames, List.mem_cons, List.not_mem_nil, or_false, not_or] at h
  unfold IsAGamepadButton
  simp only [hgp, Bool.true_and, Bool.and_eq_true, bne_iff_ne]
  tauto

/-! ### The device-preference resolution of the image-sprite lookups -/

/-- Modelled from the spec: the `EInputImageDevicePreference` enumeration is
declared in `StevesHelperCommon.h`, which is not part of the sources; the
constants used by the sources are `Auto`, `Gamepad_Keyboard_Mouse`,
`Gamepad_Mouse_Keyboard` and `Gamepad_Keyboard_Mouse_Button`. -/
inductive EInputImageDevicePreference where
  | Auto
  | Gamepad_Keyboard_Mouse
  | Gamepad_Mouse_Keyboard
  | Gamepad_Keyboard_Mouse_Button
deriving DecidableEq, Repr

/-- Modelled from the spec: the device-match predicates the resolver walks in
priority order (gamepad key, keyboard key, mouse key, device of the last
button press). -/
inductive DevicePredicate where
  | Gamepad
  | Keyboard
  | Mouse
  | LastButtonDevice
deriving DecidableEq, Repr

/-- Modelled from the spec: the preference order each device-preference
constant denotes inside the resolver (`GetPreferedActionOrAxisMapping`,
declared in `StevesUI.h`, is not part of the sources).  The spec fixes the
order for the two constants `Auto` resolves to: button-style lookups use
`{Gamepad, Keyboard, Mouse, LastButtonDevice}` and axis-style lookups use
`{Gamepad, Mouse, Keyboard, LastButtonDevice}`; `Gamepad_Keyboard_Mouse` is
modelled from its name, and `Auto` itself never reaches the resolver. -/
def preferenceOrderOf : EInputImageDevicePreference → List DevicePredicate
  | EInputImageDevicePreference.Auto => []
  | EInputImageDevicePreference.Gamepad_Keyboard_Mouse =>
      [DevicePredicate.Gamepad, DevicePredicate.Keyboard, DevicePredicate.Mouse]
  | EInputImageDevicePreference.Gamepad_Mouse_Keyboard =>
      [DevicePredicate.Gamepad, DevicePredicate.Mouse, DevicePredicate.Keyboard,
        DevicePredicate.LastButtonDevice]
  | EInputImageDevicePreference.Gamepad_Keyboard_Mouse_Button =>
      [DevicePredicate.Gamepad, DevicePredicate.Keyboard, DevicePredicate.Mouse,
        DevicePredicate.LastButtonDevice]

/-- The `Auto` resolution step of `UStevesGameSubsystem::GetInputImageSpriteFromAction`
(lines 171-173): for action (button-style) lookups, `Auto` becomes
`Gamepad_Keyboard_Mouse_Button` before the resolver runs; the action name and
player index play no part in this step. -/
def resolveActionDevicePreference (name : String)
    (devicePreference : EInputImageDevicePreference) (playerIdx : Nat) :
    EInputImageDevicePreference :=
  if devicePreference = EInputImageDevicePreference.Auto then
    EInputImageDevicePreference.Gamepad_Keyboard_Mouse_Button
  else devicePreference

/-- The `Auto` resolution step of `UStevesGameSubsystem::GetInputImageSpriteFromAxis`
(lines 195-197): for axis lookups, `Auto` becomes `Gamepad_Mouse_Keyboard`. -/
def resolveAxisDevicePreference (name : String)
    (devicePreference : EInputImageDevicePreference) (playerIdx : Nat) :
    EInputImageDevicePreference :=
  if devicePreference = EInputImageDevicePreference.Auto then
    EInputImageDevicePreference.Gamepad_Mouse_Keyboard
  else devicePreference

/-- The preference order an action lookup hands to the resolver. -/
def actionPreferenceOrderPassed (name : String)
    (devicePreference : EInputImageDevicePreference) (playerIdx : Nat) :
    List DevicePredicate :=
  preferenceOrderOf (resolveActionDevicePreference name devicePreference playerIdx)

/-- The preference order an axis lookup hands to the resolver. -/
def axisPreferenceOrderPassed (name : String)
    (devicePreference : EInputImageDevicePreference) (playerIdx : Nat) :
    List DevicePredicate :=
  preferenceOrderOf (resolveAxisDevicePreference name devicePreference playerIdx)

/-! ### The foreground check -/

/-- The subsystem state `UStevesGameSubsystem::CheckForeground` touches: the
stored focus flag `bIsForeground` and the owned detector. -/
structure ForegroundState where
  bIsForeground : Bool
  detector : FInputModeDetector
deriving DecidableEq, Repr

/-- The `bNewForeground` computation of `CheckForeground` (lines 66-69): when
the viewport chain is valid the poll observes `IsForegroundWindow()`
(`some b`), otherwise (`none`) `bNewForeground` keeps the stored value. -/
def observedForeground (st : ForegroundState) : Option Bool → Bool
  | some b => b
  | none => st.bIsForeground

/-- `UStevesGameSubsystem::CheckForeground` (lines 64-80): on a focus
transition, store the new focus flag, set the detector's `bIgnoreEvents` to
its negation, and broadcast `OnWindowForegroundChanged` once with the new
value; otherwise do nothing.  The returned list holds the fired
`OnWindowForegroundChanged` payloads. -/
def CheckForeground (st : ForegroundState) (observed : Option Bool) :
    ForegroundState × List Bool :=
  if observedForeground st observed ≠ st.bIsForeground then
    ({ bIsForeground := observedForeground st observed,
       detector := { st.detector with bIgnoreEvents := !(observedForeground st observed) } },
      [observedForeground st observed])
  else (st, [])

/-! ### The claims -/

/-- C1, counterexample: the claim says `GetLastButtonInputMode` never returns
`Unknown` for any event sequence and slot, but after a single mouse-button
press on slot 5 (which grows the button array from 4 to 6 entries,
zero-filling the middle), slot 4 reads `Unknown`. -/
theorem C1_counterexample :
    GetLastButtonInputMode (processEvents initialDetector [InputEvent.mouseButtonDown 5]) 4
      = EInputMode.Unknown := by decide

/-- C1 (amended): for every sequence of process calls whose slots all lie
below the seeded length 4 — so that no auto-growth occurs — and for every
slot, `GetLastInputMode` and `GetLastButtonInputMode` never return `Unknown`;
the mode-set writes themselves never store `Unknown`, only the zero-fill
padding of auto-growth does. -/
theorem C1_no_unknown_without_growth (es : List InputEvent)
    (hall : ∀ e ∈ es, eventUserIndex e < 4) (i : Nat) :
    GetLastInputMode (processEvents initialDetector es) i ≠ EInputMode.Unknown ∧
      GetLastButtonInputMode (processEvents initialDetector es) i ≠ EInputMode.Unknown := by
  obtain ⟨-, -, h3, h4⟩ :=
    detectorInv_processEvents es initialDetector hall detectorInv_initial
  exact ⟨h3 i, h4 i⟩

/-- Witness for C1: a concrete event sequence on slots 0-3. -/
theorem C1_no_unknown_without_growth_witness :
    GetLastInputMode (processEvents initialDetector
        [InputEvent.keyDown 0 ⟨"Gamepad_FaceButton_Bottom", true, false⟩,
         InputEvent.analog 1 1, InputEvent.mouseButtonDown 3]) 2 ≠ EInputMode.Unknown ∧
      GetLastButtonInputMode (processEvents initialDetector
        [InputEvent.keyDown 0 ⟨"Gamepad_FaceButton_Bottom", true, false⟩,
         InputEvent.analog 1 1, InputEvent.mouseButtonDown 3]) 2 ≠ EInputMode.Unknown :=
  C1_no_unknown_without_growth _ (by decide) 2

/-- C2, counterexample: an analog value of `-1` exceeds the threshold `0.2`
in absolute value, yet the handler is a complete no-op (the code compares the
signed value), so the main mode stays Mouse rather than becoming Gamepad. -/
theorem C2_counterexample :
    abs (-1 : ℚ) > GamepadAxisThreshold ∧
      HandleAnalogInputEvent initialDetector 0 (-1) = (initialDetector, []) ∧
      GetLastInputMode (HandleAnalogInputEvent initialDetector 0 (-1)).fst 0
        = EInputMode.Mouse := by
  exact ⟨by decide, by decide, by decide⟩

/-- C2 (amended): with suppression off, an analog event on a slot leaves the
main mode of that slot equal to Gamepad exactly when the signed value exceeds
the threshold or the mode already was Gamepad; the button array is never
touched, and a value not exceeding the threshold (in particular any negative
value) makes the whole call a no-op. -/
theorem C2_analog_signed_threshold (d : FInputModeDetector) (s : Nat) (v : ℚ)
    (hig : d.bIgnoreEvents = false) :
    (GetLastInputMode (HandleAnalogInputEvent d s v).fst s = EInputMode.Gamepad ↔
       (v > GamepadAxisThreshold ∨ GetLastInputMode d s = EInputMode.Gamepad)) ∧
    (HandleAnalogInputEvent d s v).fst.LastButtonPressByPlayer
      = d.LastButtonPressByPlayer ∧
    (¬ v > GamepadAxisThreshold → HandleAnalogInputEvent d s v = (d, [])) := by
  have hsp : ShouldProcessInputEvents d = true := by
    simp [ShouldProcessInputEvents, hig]
  by_cases hv : v > GamepadAxisThreshold
  · have heq : HandleAnalogInputEvent d s v = SetMode d s EInputMode.Gamepad false := by
      unfold HandleAnalogInputEvent
      rw [if_pos hsp, if_pos hv]
    rw [heq]
    refine ⟨?_, ?_, fun hc => absurd hv hc⟩
    · rw [SetMode_fst, SetModeButton_false]
      rw [GetLastInputMode_SetModeMain_self d s _ (by decide)]
      simp [hv]
    · rw [SetMode_fst, SetModeMain_button_array, SetModeButton_false]
  · have heq : HandleAnalogInputEvent d s v = (d, []) := by
      unfold HandleAnalogInputEvent
      rw [if_pos hsp, if_neg hv]
    rw [heq]
    refine ⟨?_, rfl, fun _ => rfl⟩
    simp [hv]

/-- Witness for C2 (amended) at slot 0 with value 1 on the fresh detector. -/
theorem C2_analog_signed_threshold_witness :
    (GetLastInputMode (HandleAnalogInputEvent initialDetector 0 1).fst 0
        = EInputMode.Gamepad ↔
       ((1 : ℚ) > GamepadAxisThreshold ∨
         GetLastInputMode initialDetector 0 = EInputMode.Gamepad)) ∧
    (HandleAnalogInputEvent initialDetector 0 1).fst.LastButtonPressByPlayer
      = initialDetector.LastButtonPressByPlayer ∧
    (¬ (1 : ℚ) > GamepadAxisThreshold → HandleAnalogInputEvent initialDetector 0 1
      = (initialDetector, [])) :=
  C2_analog_signed_threshold initialDetector 0 1 rfl

/-- C3, counterexample: an analog event on slot 6 grows the main array from 4
to 7 entries; the intermediate slot 4 then reads `Unknown` (the zero-fill of
`TArray::SetNum`), not the seeded default Mouse. -/
theorem C3_counterexample :
    GetLastInputMode (processEvents initialDetector [InputEvent.analog 6 1]) 4
        = EInputMode.Unknown ∧
      EInputMode.Unknown ≠ DefaultInputMode := by
  exact ⟨by decide, by decide⟩

/-- C3 (amended): both arrays start with length 4, every slot of the fresh
detector (in range or not) reads the seeded default, but an auto-growing
write to slot `s` fills each intermediate slot `j` (old length ≤ `j` < `s`)
with `Unknown`, not with the seeded default. -/
theorem C3_growth_padding :
    (initialDetector.LastInputModeByPlayer.length = 4 ∧
      initialDetector.LastButtonPressByPlayer.length = 4) ∧
    (∀ i, GetLastInputMode initialDetector i = DefaultInputMode ∧
      GetLastButtonInputMode initialDetector i = DefaultButtonInputMode) ∧
    (∀ (d : FInputModeDetector) (s j : Nat) (m : EInputMode),
      m ≠ EInputMode.Unknown → m ≠ GetLastInputMode d s →
      d.LastInputModeByPlayer.length ≤ j → j < s →
      GetLastInputMode (SetMode d s m false).fst j = EInputMode.Unknown) ∧
    (∀ (d : FInputModeDetector) (s j : Nat) (m : EInputMode),
      m ≠ EInputMode.Unknown → m ≠ GetLastButtonInputMode d s →
      d.LastButtonPressByPlayer.length ≤ j → j < s →
      GetLastButtonInputMode (SetMode d s m true).fst j = EInputMode.Unknown) := by
  refine ⟨⟨by decide, by decide⟩, ?_, ?_, ?_⟩
  · intro i
    constructor
    · exact getD_replicate_self 4 i DefaultInputMode
    · exact getD_replicate_self 4 i DefaultButtonInputMode
  · intro d s j m hm hne hlen hjs
    rw [SetMode_fst, SetModeButton_false]
    unfold SetModeMain
    rw [if_pos ⟨hm, hne⟩]
    simp only [GetLastInputMode]
    rw [getD_set_ne _ s j m _ (Nat.ne_of_gt hjs)]
    exact setNumGrowIfNeeded_getD_pad _ s j _ hlen (Nat.le_of_lt hjs)
  · intro d s j m hm hne hlen hjs
    rw [SetMode_fst, GetLastButtonInputMode_SetModeMain]
    unfold SetModeButton
    rw [if_pos ⟨rfl, hm, hne⟩]
    simp only [GetLastButtonInputMode]
    rw [getD_set_ne _ s j m _ (Nat.ne_of_gt hjs)]
    exact setNumGrowIfNeeded_getD_pad _ s j _ hlen (Nat.le_of_lt hjs)

/-- Witness for C3: growth to slot 6 pads main slot 4 and button slot 5 with
`Unknown`. -/
theorem C3_growth_padding_witness :
    GetLastInputMode (SetMode initialDetector 6 EInputMode.Gamepad false).fst 4
        = EInputMode.Unknown ∧
      GetLastButtonInputMode (SetMode initialDetector 6 EInputMode.Mouse true).fst 5
        = EInputMode.Unknown :=
  ⟨C3_growth_padding.2.2.1 initialDetector 6 4 EInputMode.Gamepad (by decide) (by decide)
      (by decide) (by decide),
   C3_growth_padding.2.2.2 initialDetector 6 5 EInputMode.Mouse (by decide) (by decide)
      (by decide) (by decide)⟩

/-- C4, counterexample: from the freshly constructed detector (whose seeded
main mode already is Mouse), two successive above-threshold mouse moves fire
zero main-mode-changed notifications, not exactly one as claimed. -/
theorem C4_counterexample :
    abs (5 : ℚ) > MouseMoveThreshold ∧
      mainChangedCount (processEventsWithTrace initialDetector
        [InputEvent.mouseMove 0 5 0, InputEvent.mouseMove 0 5 0]).snd = 0 := by
  exact ⟨by decide, by decide⟩

/-- C4 (amended): for every process call and the slot it targets, a main
(resp. button) mode-changed notification fires exactly when the observable
main (resp. button) mode of that slot differs across the call; consequently
two successive above-threshold mouse moves on one slot fire exactly one
main-mode-changed notification provided that slot's main mode was not
already Mouse (from a Mouse state, including the seeded default, they fire
none). -/
theorem C4_notification_iff_change :
    (∀ (d : FInputModeDetector) (e : InputEvent),
      ((∃ mm, DetectorEvent.inputModeChanged (eventUserIndex e) mm
          ∈ (processEvent d e).snd) ↔
        GetLastInputMode (processEvent d e).fst (eventUserIndex e)
          ≠ GetLastInputMode d (eventUserIndex e)) ∧
      ((∃ mm, DetectorEvent.buttonInputModeChanged (eventUserIndex e) mm
          ∈ (processEvent d e).snd) ↔
        GetLastButtonInputMode (processEvent d e).fst (eventUserIndex e)
          ≠ GetLastButtonInputMode d (eventUserIndex e))) ∧
    (∀ (d : FInputModeDetector) (s : Nat) (dx1 dy1 dx2 dy2 : ℚ),
      d.bIgnoreEvents = false →
      GetLastInputMode d s ≠ EInputMode.Mouse →
      (abs dx1 > MouseMoveThreshold ∨ abs dy1 > MouseMoveThreshold) →
      (abs dx2 > MouseMoveThreshold ∨ abs dy2 > MouseMoveThreshold) →
      mainChangedCount (processEventsWithTrace d
        [InputEvent.mouseMove s dx1 dy1, InputEvent.mouseMove s dx2 dy2]).snd = 1) :=
  ⟨fun d e => ⟨processEvent_main_change_iff d e, processEvent_button_change_iff d e⟩,
   twoMouseMoves_fire_once⟩

/-- Witness for C4: a mouse-button press on slot 1 of the fresh detector for
the iff part, and two mouse moves after a gamepad event for the counting
part. -/
theorem C4_notification_iff_change_witness :
    ((∃ mm, DetectorEvent.inputModeChanged 1 mm
        ∈ (processEvent initialDetector (InputEvent.mouseButtonDown 1)).snd) ↔
      GetLastInputMode (processEvent initialDetector (InputEvent.mouseButtonDown 1)).fst 1
        ≠ GetLastInputMode initialDetector 1) ∧
    mainChangedCount (processEventsWithTrace
      (processEvents initialDetector [InputEvent.analog 0 1])
      [InputEvent.mouseMove 0 5 0, InputEvent.mouseMove 0 5 0]).snd = 1 :=
  ⟨(C4_notification_iff_change.1 initialDetector (InputEvent.mouseButtonDown 1)).1,
   C4_notification_iff_change.2 (processEvents initialDetector [InputEvent.analog 0 1])
      0 5 0 5 0 (by decide) (by decide) (by decide) (by decide)⟩

/-- C5: a key-down whose key is a gamepad key on the 8-entry analog-stick
exclusion list leaves the slot's main mode Gamepad, leaves the button array
untouched and fires no button-mode-changed notification; a gamepad key not on
the list updates both the main and the button mode to Gamepad. -/
theorem C5_stick_exclusion (d : FInputModeDetector) (s : Nat) (key : FKey)
    (hig : d.bIgnoreEvents = false) (hgp : key.bIsGamepadKey = true) :
    (key.name ∈ stickKeyNames →
      GetLastInputMode (HandleKeyDownEvent d s key).fst s = EInputMode.Gamepad ∧
      (HandleKeyDownEvent d s key).fst.LastButtonPressByPlayer
        = d.LastButtonPressByPlayer ∧
      buttonChangedCount (HandleKeyDownEvent d s key).snd = 0) ∧
    (key.name ∉ stickKeyNames →
      GetLastInputMode (HandleKeyDownEvent d s key).fst s = EInputMode.Gamepad ∧
      GetLastButtonInputMode (HandleKeyDownEvent d s key).fst s = EInputMode.Gamepad) := by
  have hsp : ShouldProcessInputEvents d = true := by
    simp [ShouldProcessInputEvents, hig]
  have hk : HandleKeyDownEvent d s key
      = SetMode d s EInputMode.Gamepad (IsAGamepadButton key) := by
    unfold HandleKeyDownEvent
    rw [if_pos hsp]
    unfold ProcessKeyOrButton
    rw [if_pos hgp]
  constructor
  · intro hmem
    have hbtn : IsAGamepadButton key = false := IsAGamepadButton_of_mem key hmem
    rw [hk, hbtn]
    refine ⟨?_, ?_, ?_⟩
    · rw [SetMode_fst, SetModeButton_false]
      exact GetLastInputMode_SetModeMain_self d s _ (by decide)
    · rw [SetMode_fst, SetModeMain_button_array, SetModeButton_false]
    · rw [buttonChangedCount_SetMode, SetModeButton_false]
      simp
  · intro hnmem
    have hbtn : IsAGamepadButton key = true := IsAGamepadButton_of_not_mem key hgp hnmem
    rw [hk, hbtn]
    constructor
    · rw [SetMode_fst]
      exact GetLastInputMode_SetModeMain_self _ s _ (by decide)
    · rw [SetMode_fst, GetLastButtonInputMode_SetModeMain]
      exact GetLastButtonInputMode_SetModeButton_self d s _ (by decide)

/-- Witness for C5: a left-stick-up key (on the exclusion list) and a face
button (not on it), both on slot 0 of the fresh detector. -/
theorem C5_stick_exclusion_witness :
    (GetLastInputMode (HandleKeyDownEvent initialDetector 0
        ⟨"Gamepad_LeftStick_Up", true, false⟩).fst 0 = EInputMode.Gamepad ∧
      (HandleKeyDownEvent initialDetector 0
        ⟨"Gamepad_LeftStick_Up", true, false⟩).fst.LastButtonPressByPlayer
        = initialDetector.LastButtonPressByPlayer ∧
      buttonChangedCount (HandleKeyDownEvent initialDetector 0
        ⟨"Gamepad_LeftStick_Up", true, false⟩).snd = 0) ∧
    (GetLastInputMode (HandleKeyDownEvent initialDetector 0
        ⟨"Gamepad_FaceButton_Bottom", true, false⟩).fst 0 = EInputMode.Gamepad ∧
      GetLastButtonInputMode (HandleKeyDownEvent initialDetector 0
        ⟨"Gamepad_FaceButton_Bottom", true, false⟩).fst 0 = EInputMode.Gamepad) :=
  ⟨(C5_stick_exclusion initialDetector 0 ⟨"Gamepad_LeftStick_Up", true, false⟩ rfl rfl).1
      (by decide),
   (C5_stick_exclusion initialDetector 0 ⟨"Gamepad_FaceButton_Bottom", true, false⟩ rfl rfl).2
      (by decide)⟩

/-- C6: while `bIgnoreEvents` is set, every process call, for every slot and
payload, returns the state unchanged and fires no notification. -/
theorem C6_suppression_noop (d : FInputModeDetector) (e : InputEvent)
    (h : d.bIgnoreEvents = true) : processEvent d e = (d, []) :=
  processEvent_ignored d e h

/-- Witness for C6: a suppressed fresh detector ignores a mouse press. -/
theorem C6_suppression_noop_witness :
    processEvent { initialDetector with bIgnoreEvents := true }
        (InputEvent.mouseButtonDown 0)
      = ({ initialDetector with bIgnoreEvents := true }, []) :=
  C6_suppression_noop { initialDetector with bIgnoreEvents := true }
    (InputEvent.mouseButtonDown 0) rfl

/-- C7: a mode-set write of a mode other than `Unknown` and other than the
seeded default, targeting a slot at or beyond the current length of the
respective sequence, grows that sequence to `slot + 1` entries, and the
corresponding read of that slot afterwards returns the written mode. -/
theorem C7_out_of_range_write_grows (d : FInputModeDetector) (s : Nat) (m : EInputMode) :
    (d.LastInputModeByPlayer.length ≤ s → m ≠ EInputMode.Unknown →
        m ≠ DefaultInputMode →
      (SetMode d s m false).fst.LastInputModeByPlayer.length = s + 1 ∧
        GetLastInputMode (SetMode d s m false).fst s = m) ∧
    (d.LastButtonPressByPlayer.length ≤ s → m ≠ EInputMode.Unknown →
        m ≠ DefaultButtonInputMode →
      (SetMode d s m true).fst.LastButtonPressByPlayer.length = s + 1 ∧
        GetLastButtonInputMode (SetMode d s m true).fst s = m) := by
  constructor
  · intro hs hm hdm
    have hne : m ≠ GetLastInputMode d s := by
      rw [GetLastInputMode, getD_length_le _ _ _ hs]
      exact hdm
    constructor
    · rw [SetMode_fst, SetModeButton_false]
      exact SetModeMain_length_grow d s m hs hm hne
    · rw [SetMode_fst, SetModeButton_false]
      exact GetLastInputMode_SetModeMain_self d s m hm
  · intro hs hm hdm
    have hne : m ≠ GetLastButtonInputMode d s := by
      rw [GetLastButtonInputMode, getD_length_le _ _ _ hs]
      exact hdm
    constructor
    · rw [SetMode_fst, SetModeMain_button_array]
      exact SetModeButton_length_grow d s m hs hm hne
    · rw [SetMode_fst, GetLastButtonInputMode_SetModeMain]
      exact GetLastButtonInputMode_SetModeButton_self d s m hm

/-- Witness for C7: writes to slot 10 of the fresh 4-slot detector. -/
theorem C7_out_of_range_write_grows_witness :
    ((SetMode initialDetector 10 EInputMode.Gamepad false).fst.LastInputModeByPlayer.length
        = 10 + 1 ∧
      GetLastInputMode (SetMode initialDetector 10 EInputMode.Gamepad false).fst 10
        = EInputMode.Gamepad) ∧
    ((SetMode initialDetector 10 EInputMode.Gamepad true).fst.LastButtonPressByPlayer.length
        = 10 + 1 ∧
      GetLastButtonInputMode (SetMode initialDetector 10 EInputMode.Gamepad true).fst 10
        = EInputMode.Gamepad) :=
  ⟨(C7_out_of_range_write_grows initialDetector 10 EInputMode.Gamepad).1 (by decide)
      (by decide) (by decide),
   (C7_out_of_range_write_grows initialDetector 10 EInputMode.Gamepad).2 (by decide)
      (by decide) (by decide)⟩

/-- C8: an action (button-style) lookup resolves `Auto` to the order
`{Gamepad, Keyboard, Mouse, LastButtonDevice}` and an axis lookup resolves it
to `{Gamepad, Mouse, Keyboard, LastButtonDevice}`, whatever the action or
axis name and player index. -/
theorem C8_auto_preference_orders :
    (∀ (name : String) (playerIdx : Nat),
      actionPreferenceOrderPassed name EInputImageDevicePreference.Auto playerIdx
        = [DevicePredicate.Gamepad, DevicePredicate.Keyboard, DevicePredicate.Mouse,
            DevicePredicate.LastButtonDevice]) ∧
    (∀ (name : String) (playerIdx : Nat),
      axisPreferenceOrderPassed name EInputImageDevicePreference.Auto playerIdx
        = [DevicePredicate.Gamepad, DevicePredicate.Mouse, DevicePredicate.Keyboard,
            DevicePredicate.LastButtonDevice]) :=
  ⟨fun _ _ => rfl, fun _ _ => rfl⟩

/-- C9: the foreground poll is edge-triggered: no observation, or an observed
focus state equal to the stored one, changes nothing and fires nothing; an
observed transition stores the new focus state, sets the detector's
suppression flag to its negation, leaves the detector's mode arrays alone and
fires the focus-changed notification exactly once with the new state. -/
theorem C9_foreground_edge_triggered (st : ForegroundState) :
    CheckForeground st none = (st, []) ∧
    CheckForeground st (some st.bIsForeground) = (st, []) ∧
    (∀ b : Bool, b ≠ st.bIsForeground →
      (CheckForeground st (some b)).fst.bIsForeground = b ∧
      (CheckForeground st (some b)).fst.detector.bIgnoreEvents = !b ∧
      (CheckForeground st (some b)).fst.detector.LastInputModeByPlayer
        = st.detector.LastInputModeByPlayer ∧
      (CheckForeground st (some b)).fst.detector.LastButtonPressByPlayer
        = st.detector.LastButtonPressByPlayer ∧
      (CheckForeground st (some b)).snd = [b]) := by
  refine ⟨?_, ?_, ?_⟩
  · unfold CheckForeground
    rw [if_neg]
    intro h
    exact h rfl
  · unfold CheckForeground
    rw [if_neg]
    intro h
    exact h rfl
  · intro b hb
    have hobs : observedForeground st (some b) = b := rfl
    unfold CheckForeground
    rw [hobs, if_pos hb]
    exact ⟨rfl, rfl, rfl, rfl, rfl⟩

/-- Witness for C9: losing focus from a focused state with a fresh detector. -/
theorem C9_foreground_edge_triggered_witness :
    (CheckForeground ⟨true, initialDetector⟩ (some false)).fst.bIsForeground = false ∧
    (CheckForeground ⟨true, initialDetector⟩ (some false)).fst.detector.bIgnoreEvents
      = !false ∧
    (CheckForeground ⟨true, initialDetector⟩ (some false)).fst.detector.LastInputModeByPlayer
      = initialDetector.LastInputModeByPlayer ∧
    (CheckForeground ⟨true, initialDetector⟩
        (some false)).fst.detector.LastButtonPressByPlayer
      = initialDetector.LastButtonPressByPlayer ∧
    (CheckForeground ⟨true, initialDetector⟩ (some false)).snd = [false] :=
  (C9_foreground_edge_triggered ⟨true, initialDetector⟩).2.2 false (by decide)

/-- C10: one mode-set write targeting slot `s` changes no other slot that was
in range before the call, in either sequence, and a non-button write never
changes the button sequence at all. -/
theorem C10_single_slot_frame (d : FInputModeDetector) (s : Nat) (m : EInputMode)
    (bb : Bool) (j : Nat) :
    (j ≠ s → j < d.LastInputModeByPlayer.length →
      GetLastInputMode (SetMode d s m bb).fst j = GetLastInputMode d j) ∧
    (j ≠ s → j < d.LastButtonPressByPlayer.length →
      GetLastButtonInputMode (SetMode d s m bb).fst j = GetLastButtonInputMode d j) ∧
    (bb = false → (SetMode d s m bb).fst.LastButtonPressByPlayer
      = d.LastButtonPressByPlayer) := by
  refine ⟨?_, ?_, ?_⟩
  · intro hj hlt
    have hlt2 : j < (SetModeButton d s m bb).fst.LastInputModeByPlayer.length := by
      rw [SetModeButton_main_array]
      exact hlt
    rw [SetMode_fst, GetLastInputMode_SetModeMain_ne _ s m j hj hlt2,
      GetLastInputMode_SetModeButton]
  · intro hj hlt
    rw [SetMode_fst, GetLastButtonInputMode_SetModeMain,
      GetLastButtonInputMode_SetModeButton_ne d s m bb j hj hlt]
  · intro hbf
    subst hbf
    rw [SetMode_fst, SetModeMain_button_array, SetModeButton_false]

/-- Witness for C10: a write to slot 1 leaves slot 0 alone, and a non-button
write leaves the whole button array alone. -/
theorem C10_single_slot_frame_witness :
    (GetLastInputMode (SetMode initialDetector 1 EInputMode.Gamepad true).fst 0
        = GetLastInputMode initialDetector 0) ∧
    (GetLastButtonInputMode (SetMode initialDetector 1 EInputMode.Gamepad true).fst 0
        = GetLastButtonInputMode initialDetector 0) ∧
    (SetMode initialDetector 1 EInputMode.Mouse false).fst.LastButtonPressByPlayer
        = initialDetector.LastButtonPressByPlayer :=
  ⟨(C10_single_slot_frame initialDetector 1 EInputMode.Gamepad true 0).1 (by decide)
      (by decide),
   (C10_single_slot_frame initialDetector 1 EInputMode.Gamepad true 0).2.1 (by decide)
      (by decide),
   (C10_single_slot_frame initialDetector 1 EInputMode.Mouse false 0).2.2 rfl⟩
